import Mathlib

/-!
Verification development for the sandpy execution-host controller.

The embedding models the two halves of the system:
* the worker-side isolate controller (`PyWorker` namespace): artifact
  parsing, the Python run pipeline, the virtual filesystem, the storage
  backend mirror and the message-dispatch loop;
* the host-side proxy (`Sandpy` namespace): the pending-call table,
  the worker message handler, result formatting and the timeout path
  of `run`.

Strings are modelled as lists of characters (`Str`); external
collaborators (the Pyodide interpreter, micropip, the browser storage
APIs) are black boxes whose outcomes are supplied by an `Oracle`
record, exactly at the boundary where the source code awaits them.
-/

deriving instance DecidableEq for Except

abbrev Str := List Char

/-- Convert a string literal into the character-list representation. -/
def chars (s : String) : Str := s.toList

/-- JS `s.startsWith(p)`. -/
def jsStartsWith (s p : Str) : Bool := p.isPrefixOf s

/-- Index of the first occurrence of `c` in `s`, if any. -/
def strIdxOf : Str → Char → Option Nat
  | [], _ => none
  | a :: s, c => if a = c then some 0 else (strIdxOf s c).map (· + 1)

/-- JS `s.indexOf(c, start)`: absolute index of the first occurrence of
`c` at or after position `start`, or `-1` when there is none. -/
def jsIndexOfFrom (s : Str) (c : Char) (start : Nat) : Int :=
  match strIdxOf (s.drop start) c with
  | some j => ((start + j : Nat) : Int)
  | none => -1

/-- JS truthiness of an optional string field: `undefined` and the empty
string are falsy. -/
def jsTruthyOptStr : Option Str → Bool
  | none => false
  | some s => !s.isEmpty

/-- JS `x || d` for an optional string field `x` with default `d`. -/
def jsOrStr (o : Option Str) (d : Str) : Str :=
  match o with
  | some s => if s.isEmpty then d else s
  | none => d

/-- JS whitespace test used by `String.prototype.trimEnd` (restricted to
the ASCII whitespace characters that can occur in captured output). -/
def jsIsWhitespace (c : Char) : Bool :=
  c = ' ' || c = '\n' || c = '\t' || c = '\r' || c = '\x0b' || c = '\x0c'

/-- JS `s.trimEnd()`. -/
def trimEnd (s : Str) : Str :=
  (s.reverse.dropWhile jsIsWhitespace).reverse

/-- JS `s.split('\n')`. -/
def splitNl : Str → List Str
  | [] => [[]]
  | c :: rest =>
    match splitNl rest with
    | [] => [[]]
    | l :: ls => if c = '\n' then [] :: l :: ls else (c :: l) :: ls

/-- JS `lines.join('\n')`. -/
def joinNl (ls : List Str) : Str := List.intercalate ['\n'] ls

namespace PyWorker

/-- The in-band marker prefix for structured artifacts
(`ARTIFACT_MARKER` in the worker source). -/
def ARTIFACT_MARKER : Str := chars "__SANDPY_ARTIFACT__:"

/-- The persistence root (`PERSIST_PREFIX` in the worker source). -/
def persistRoot : Str := chars "/sandbox"

/-- The persistence root followed by the path separator; the write-through
test in the worker is `path.startsWith(PERSIST_PREFIX + '/')`. -/
def sandboxSlash : Str := persistRoot ++ ['/']

/-- A structured artifact extracted from a marker line. -/
structure Artifact where
  type : Str
  alt : Str
  content : Str
deriving DecidableEq, Repr

/-- Parse one marker-prefixed line into an artifact, following the body
of the marker branch of `parseArtifacts`: the text after the prefix is
split on its first two colons; the line yields an artifact exactly when
`firstColon > 0 && secondColon > 0`. -/
def lineArtifact (line : Str) : Option Artifact :=
  let rest := line.drop ARTIFACT_MARKER.length
  let firstColon := jsIndexOfFrom rest ':' 0
  let secondColon := jsIndexOfFrom rest ':' (firstColon + 1).toNat
  if firstColon > 0 && secondColon > 0 then
    some { type := rest.take firstColon.toNat
           alt := (rest.drop (firstColon.toNat + 1)).take (secondColon.toNat - (firstColon.toNat + 1))
           content := rest.drop (secondColon.toNat + 1) }
  else
    none

/-- The loop body of `parseArtifacts`, over the list of lines: a line
starting with the marker either yields an artifact or is discarded;
every other line is kept as clean output. -/
def parseArtifactsLines : List Str → List Artifact × List Str
  | [] => ([], [])
  | line :: ls =>
    let (arts, clean) := parseArtifactsLines ls
    if jsStartsWith line ARTIFACT_MARKER then
      match lineArtifact line with
      | some a => (a :: arts, clean)
      | none => (arts, clean)
    else
      (arts, line :: clean)

/-- Result of scanning captured output for artifacts. -/
structure ParsedOutput where
  cleanOutput : Str
  artifacts : List Artifact
deriving DecidableEq, Repr

/-- `parseArtifacts(output)` from the worker source: split the buffer on
newlines, extract artifacts from well-formed marker lines, and rejoin
the remaining lines. -/
def parseArtifacts (output : Str) : ParsedOutput :=
  { cleanOutput := joinNl (parseArtifactsLines (splitNl output)).2
    artifacts := (parseArtifactsLines (splitNl output)).1 }

/-- A JSON-transportable JavaScript value, as produced by converting the
final expression value of a run (`result.toJs` followed by a JSON
round-trip; primitive values convert to themselves). -/
inductive JsVal where
  | num (n : Int)
  | str (s : Str)
  | bool (b : Bool)
deriving DecidableEq, Repr

/-- The observable effect of one `pyodide.runPythonAsync(code)` call: the
stdout fragments delivered to the batched stdout sink, the stderr
fragments, and either the final expression value (`none` standing for
`undefined`/`null`) or a thrown error message. The interpreter is an
external collaborator, so this record is an oracle input. -/
structure ExecEffect where
  fragments : List Str
  errFragments : List Str
  outcome : Except Str (Option JsVal)
deriving DecidableEq, Repr

/-- A message posted from the worker to the host. Optional fields model
JS object fields that a given response shape leaves `undefined`; the
`success` and `streaming` flags default to `false`, matching the
falsiness of an absent field. -/
structure WorkerResponse where
  id : Nat
  success : Bool := false
  streaming : Bool := false
  stdout : Option Str := none
  stderr : Option Str := none
  result : Option JsVal := none
  artifacts : Option (List Artifact) := none
  output : Option Str := none
  content : Option Str := none
  files : Option (List Str) := none
  error : Option Str := none
  snapshot : Option Str := none
  packages : Option (List Str) := none
deriving DecidableEq, Repr

/-- The plain-object value returned by the worker-side `runPython`. -/
structure PyRunOutput where
  stdout : Str
  stderr : Str
  result : Option JsVal
  artifacts : List Artifact
  output : Str
  error : Option Str
deriving DecidableEq, Repr

/-- The accumulated stdout buffer: the batched sink appends each
fragment followed by a newline (`stdout += text + '\n'`). -/
def buffer (fragments : List Str) : Str :=
  (fragments.map (fun f => f ++ ['\n'])).flatten

/-- The streaming chunks posted by the transient stdout sink during a
run: when the per-call streaming flag is set, every fragment that does
not start with the artifact marker is posted immediately as
`{id, streaming: true, stdout: text}`. -/
def streamChunks (messageId : Nat) (streaming : Bool) (fragments : List Str) :
    List WorkerResponse :=
  if streaming then
    (fragments.filter (fun f => !(jsStartsWith f ARTIFACT_MARKER))).map
      (fun f => { id := messageId, streaming := true, stdout := some f })
  else
    []

/-- Worker-side `runPython(code, messageId, streaming)` given the
interpreter effect `eff`: accumulate the batched fragments, post
streaming chunks, then trim the buffer, extract artifacts, and build
the plain result object (on throw, the partial capture is kept and the
error message recorded). Returns the result object together with the
streaming messages posted during execution, in order. -/
def runPython (code : Str) (messageId : Nat) (streaming : Bool) (eff : ExecEffect) :
    PyRunOutput × List WorkerResponse :=
  let _ := code
  let stdoutBuf := buffer eff.fragments
  let stderrBuf := buffer eff.errFragments
  let streams := streamChunks messageId streaming eff.fragments
  match eff.outcome with
  | .ok v =>
    let parsed := parseArtifacts (trimEnd stdoutBuf)
    ({ stdout := parsed.cleanOutput
       stderr := trimEnd stderrBuf
       result := v
       artifacts := parsed.artifacts
       output := parsed.cleanOutput
       error := none }, streams)
  | .error msg =>
    let parsed := parseArtifacts (trimEnd stdoutBuf)
    ({ stdout := parsed.cleanOutput
       stderr := trimEnd stderrBuf
       result := none
       artifacts := parsed.artifacts
       output := parsed.cleanOutput
       error := some msg }, streams)

/-- Update or add a binding in an association-list map (files of the
virtual filesystem or of the storage backend). -/
def alSet (m : List (Str × Str)) (k v : Str) : List (Str × Str) :=
  match m with
  | [] => [(k, v)]
  | (k', v') :: rest => if k' = k then (k, v) :: rest else (k', v') :: alSet rest k v

/-- Look up a binding in an association-list map. -/
def alGet (m : List (Str × Str)) (k : Str) : Option Str :=
  match m with
  | [] => none
  | (k', v') :: rest => if k' = k then some v' else alGet rest k

/-- Remove a binding from an association-list map. -/
def alDel (m : List (Str × Str)) (k : Str) : List (Str × Str) :=
  m.filter (fun kv => kv.1 ≠ k)

/-- The Storage Backend (OPFS or IndexedDB): a persistent map from keys
(paths relative to the persistence root) to file contents. Both
implementations satisfy the same map contract, so one model covers
either choice. -/
structure Backend where
  files : List (Str × Str)
deriving DecidableEq, Repr

/-- Backend `write(path, content)`. -/
def Backend.write (b : Backend) (path content : Str) : Backend :=
  ⟨alSet b.files path content⟩

/-- Backend `delete(path)`; deleting an absent key either succeeds
(IndexedDB) or throws and is swallowed by the caller's try/catch
(OPFS), so the modelled effect is total removal. -/
def Backend.del (b : Backend) (path : Str) : Backend :=
  ⟨alDel b.files path⟩

/-- Worker-global state: the interpreter's virtual filesystem (modelled
as a flat map over full paths), the probed storage backend (`none`
until `init` completes), the installed-package list, and whether
`pyodide` is non-null. -/
structure WorkerState where
  vfs : List (Str × Str)
  storage : Option Backend
  installedPackages : List Str
  pyInit : Bool
deriving DecidableEq, Repr

/-- The error message of the guard `if (!pyodide) throw ...` present in
every worker handler. -/
def pyNotInit : Str := chars "Pyodide not initialized"

/-- Modelled message of the exception thrown by the Emscripten FS layer
when a path does not exist (its exact text is owned by the external
runtime; only its non-emptiness matters to the protocol). -/
def fsErrNoEnt : Str := chars "FS error: no such file or directory"

/-- The storage key of a path under the persistence root:
`path.slice(PERSIST_PREFIX.length + 1)`. -/
def storageKey (path : Str) : Str := path.drop (persistRoot.length + 1)

/-- Worker-side `writeFile(path, content)`: write into the virtual
filesystem (intermediate directories are created, which the flat map
absorbs), then, when the path falls under the persistence root and a
backend is present, mirror the write to the backend; the mirror is
awaited before the handler returns. -/
def wWriteFile (st : WorkerState) (path content : Str) :
    WorkerState × Except Str Unit :=
  if st.pyInit = false then (st, .error pyNotInit)
  else
    if jsStartsWith path sandboxSlash then
      match st.storage with
      | some b =>
        ({ st with vfs := alSet st.vfs path content
                   storage := some (b.write (storageKey path) content) }, .ok ())
      | none => ({ st with vfs := alSet st.vfs path content }, .ok ())
    else ({ st with vfs := alSet st.vfs path content }, .ok ())

/-- Worker-side `readFile(path)`: read from the virtual filesystem;
a missing path propagates the FS exception. -/
def wReadFile (st : WorkerState) (path : Str) : Except Str Str :=
  if st.pyInit = false then .error pyNotInit
  else
    match alGet st.vfs path with
    | some c => .ok c
    | none => .error fsErrNoEnt

/-- Worker-side `deleteFile(path)`: unlink from the virtual filesystem
(a missing path throws), then, when under the persistence root and a
backend is present, best-effort delete from the backend. -/
def wDeleteFile (st : WorkerState) (path : Str) :
    WorkerState × Except Str Unit :=
  if st.pyInit = false then (st, .error pyNotInit)
  else
    match alGet st.vfs path with
    | none => (st, .error fsErrNoEnt)
    | some _ =>
      if jsStartsWith path sandboxSlash then
        match st.storage with
        | some b =>
          ({ st with vfs := alDel st.vfs path
                     storage := some (b.del (storageKey path)) }, .ok ())
        | none => ({ st with vfs := alDel st.vfs path }, .ok ())
      else ({ st with vfs := alDel st.vfs path }, .ok ())

/-- Worker-side `listFiles(dirPath)`: the recursive directory walk,
expressed over the flat file map as the set of file paths strictly
below `dirPath` (unreadable directories yield no entries, which the
total filter absorbs). -/
def wListFiles (st : WorkerState) (dirPath : Str) : Except Str (List Str) :=
  if st.pyInit = false then .error pyNotInit
  else
    .ok ((st.vfs.map Prod.fst).filter (fun k => jsStartsWith k (dirPath ++ ['/'])))

/-- `installPackages` expansion of known transitive requirements:
`matplotlib` implies `pillow`, installed first. -/
def expandPackages (ps : List Str) : List Str :=
  (ps.map (fun p => if p = chars "matplotlib" then [chars "pillow", p] else [p])).flatten

/-- Append each name to the installed-package list unless already
recorded (`if (!installedPackages.includes(pkg)) push(pkg)`). -/
def dedupAppend (l : List Str) (xs : List Str) : List Str :=
  xs.foldl (fun acc p => if p ∈ acc then acc else acc ++ [p]) l

/-- Worker-side `installPackages(packages)`: expand requirements, then
install one by one through micropip, recording each success. micropip
is external, so a failure point is an oracle input: `some (k, m)` means
the installer threw message `m` on the package at index `k` of the
expanded list, after the first `k` installs were recorded. -/
def wInstall (st : WorkerState) (failAt : Option (Nat × Str)) (ps : List Str) :
    WorkerState × Except Str Unit :=
  if st.pyInit = false then (st, .error pyNotInit)
  else
    let e := expandPackages ps
    match failAt with
    | none => ({ st with installedPackages := dedupAppend st.installedPackages e }, .ok ())
    | some (k, m) =>
      ({ st with installedPackages := dedupAppend st.installedPackages (e.take k) }, .error m)

/-- Worker-side `createSnapshot()`: ensure `dill` is recorded as
installed, then serialize the user globals; the dill serialization is
external and its outcome (`state` text or thrown message) is an oracle
input. A failure is modelled before the `dill` bookkeeping. -/
def wSnapshot (st : WorkerState) (res : Except Str Str) :
    WorkerState × Except Str (Str × List Str) :=
  if st.pyInit = false then (st, .error pyNotInit)
  else
    match res with
    | .error m => (st, .error m)
    | .ok state =>
      let st1 := { st with installedPackages := dedupAppend st.installedPackages [chars "dill"] }
      (st1, .ok (state, st1.installedPackages))

/-- Worker-side `restoreSnapshot(state, packages)`: reinstall the
snapshot's package list, ensure `dill`, then decode and merge the
bindings; the interpreter-side work is external, so its outcome is an
oracle input. A failure is modelled before the package bookkeeping. -/
def wRestore (st : WorkerState) (res : Except Str Unit) (ps : List Str) :
    WorkerState × Except Str Unit :=
  if st.pyInit = false then (st, .error pyNotInit)
  else
    match res with
    | .error m => (st, .error m)
    | .ok _ =>
      ({ st with installedPackages :=
          dedupAppend st.installedPackages (expandPackages ps ++ [chars "dill"]) }, .ok ())

/-- Worker-side `initPyodide(preload)`: bootstrap the interpreter,
record the preloaded packages, probe the storage backend, and restore
every persisted record into the virtual filesystem under the
persistence root (best effort per file). Bootstrap and probing are
external; their combined outcome is an oracle input carrying the
selected backend on success. -/
def wInit (st : WorkerState) (res : Except Str Backend) (preload : List Str) :
    WorkerState × Except Str Unit :=
  match res with
  | .error m => (st, .error m)
  | .ok b =>
    let vfs := b.files.foldl (fun v kc => alSet v (sandboxSlash ++ kc.1) kc.2) st.vfs
    ({ st with pyInit := true
               storage := some b
               installedPackages := st.installedPackages ++ preload
               vfs := vfs }, .ok ())

/-- An incoming request's kind and payload, after destructuring
`event.data`; `Option` fields model payload fields a sender may leave
`undefined`, and `other` covers unrecognized kind strings. -/
inductive ReqKind where
  | init (preload : Option (List Str))
  | run (code : Option Str) (streaming : Bool)
  | write (path : Option Str) (content : Option Str)
  | read (path : Option Str)
  | del (path : Option Str)
  | list (path : Option Str)
  | install (packages : Option (List Str))
  | snap
  | restore (snapshot : Option Str) (packages : Option (List Str))
  | destroy
  | other (t : Str)
deriving DecidableEq, Repr

/-- Outcomes of the external collaborators consulted while handling one
message: interpreter bootstrap and storage probing, code execution,
micropip installation, and dill serialization. -/
structure Oracle where
  initRes : Except Str Backend
  runEff : ExecEffect
  installFail : Option (Nat × Str)
  snapRes : Except Str Str
  restoreRes : Except Str Unit
deriving DecidableEq, Repr

/-- Whether an external outcome's error message, if any, is non-empty.
A JavaScript `Error` raised by a real collaborator failure carries a
message; the protocol property below is conditional on this. -/
def exceptMsgOk {α : Type} : Except Str α → Bool
  | .error m => !m.isEmpty
  | .ok _ => true

/-- All error messages an oracle can inject are non-empty. -/
def Oracle.msgsOk (o : Oracle) : Bool :=
  exceptMsgOk o.initRes
    && (match o.installFail with
        | some km => !km.2.isEmpty
        | none => true)
    && exceptMsgOk o.snapRes
    && exceptMsgOk o.restoreRes

/-- A failed terminal response. -/
def errResp (id : Nat) (m : Str) : WorkerResponse :=
  { id := id, success := false, error := some m }

/-- The terminal response of the `run` case of the dispatch loop
(`success: !result.error` plus the captured fields). -/
def runTerminalResp (id : Nat) (out : PyRunOutput) : WorkerResponse :=
  { id := id
    success := !(jsTruthyOptStr out.error)
    stdout := some out.stdout
    stderr := some out.stderr
    result := out.result
    artifacts := some out.artifacts
    output := some out.output
    error := out.error }

/-- The worker dispatch loop (`self.onmessage`): handle one request,
catching every handler exception at the dispatch boundary and
converting it into a failed response, then post exactly one terminal
response. Returns the new worker state and the posted messages in
order (streaming chunks first, terminal response last). -/
def workerDispatch (st : WorkerState) (o : Oracle) (id : Nat) (k : ReqKind) :
    WorkerState × List WorkerResponse :=
  match k with
  | .init preload =>
    match wInit st o.initRes (preload.getD []) with
    | (st', .ok _) => (st', [{ id := id, success := true }])
    | (st', .error m) => (st', [errResp id m])
  | .run code streamFlag =>
    match code with
    | none => (st, [errResp id (chars "No code provided")])
    | some c =>
      if c.isEmpty then (st, [errResp id (chars "No code provided")])
      else
        if st.pyInit = false then (st, [errResp id pyNotInit])
        else
          let (out, streams) := runPython c id streamFlag o.runEff
          (st, streams ++ [runTerminalResp id out])
  | .write path content =>
    match path, content with
    | some p, some c =>
      if p.isEmpty then (st, [errResp id (chars "Path and content required")])
      else
        match wWriteFile st p c with
        | (st', .ok _) => (st', [{ id := id, success := true }])
        | (st', .error m) => (st', [errResp id m])
    | _, _ => (st, [errResp id (chars "Path and content required")])
  | .read path =>
    match path with
    | some p =>
      if p.isEmpty then (st, [errResp id (chars "Path required")])
      else
        match wReadFile st p with
        | .ok c => (st, [{ id := id, success := true, content := some c }])
        | .error m => (st, [errResp id m])
    | none => (st, [errResp id (chars "Path required")])
  | .del path =>
    match path with
    | some p =>
      if p.isEmpty then (st, [errResp id (chars "Path required")])
      else
        match wDeleteFile st p with
        | (st', .ok _) => (st', [{ id := id, success := true }])
        | (st', .error m) => (st', [errResp id m])
    | none => (st, [errResp id (chars "Path required")])
  | .list path =>
    match wListFiles st (jsOrStr path persistRoot) with
    | .ok fs => (st, [{ id := id, success := true, files := some fs }])
    | .error m => (st, [errResp id m])
  | .install packages =>
    match packages with
    | none => (st, [errResp id (chars "Packages array required")])
    | some ps =>
      if ps.isEmpty then (st, [errResp id (chars "Packages array required")])
      else
        match wInstall st o.installFail ps with
        | (st', .ok _) => (st', [{ id := id, success := true }])
        | (st', .error m) => (st', [errResp id m])
  | .snap =>
    match wSnapshot st o.snapRes with
    | (st', .ok (state, pkgs)) =>
      (st', [{ id := id, success := true, snapshot := some state, packages := some pkgs }])
    | (st', .error m) => (st', [errResp id m])
  | .restore snap packages =>
    match snap with
    | none => (st, [errResp id (chars "Snapshot data required")])
    | some s =>
      if s.isEmpty then (st, [errResp id (chars "Snapshot data required")])
      else
        match wRestore st o.restoreRes (packages.getD []) with
        | (st', .ok _) => (st', [{ id := id, success := true }])
        | (st', .error m) => (st', [errResp id m])
  | .destroy =>
    ({ st with pyInit := false }, [{ id := id, success := true }])
  | .other t =>
    (st, [errResp id (chars "Unknown message type: " ++ t)])

end PyWorker

namespace Sandpy

open PyWorker

/-- The result type of `Sandpy.run`; `timedOut` is set only by the
synthetic timeout result. -/
structure RunResult where
  success : Bool
  stdout : Str
  stderr : Str
  result : Option JsVal := none
  artifacts : List Artifact
  error : Option Str := none
  timedOut : Option Bool := none
deriving DecidableEq, Repr

/-- `Sandpy.formatRunResult(response)`. -/
def formatRunResult (r : WorkerResponse) : RunResult :=
  { success := r.success
    stdout := jsOrStr r.stdout []
    stderr := jsOrStr r.stderr []
    result := r.result
    artifacts := r.artifacts.getD []
    error := r.error
    timedOut := none }

/-- Options captured at `Sandpy.create` time; `preload` is replayed on
every reinitialization. -/
structure CreateOptions where
  preload : Option (List Str) := none
deriving DecidableEq, Repr

/-- Host-proxy state: the monotone correlation-id counter, the keys of
the pending-call table and of the stream-callback table, and the identity
and liveness of the current worker channel (`workerGen` increments each
time a fresh worker is spawned). -/
structure ProxyState where
  messageId : Nat
  pending : List Nat
  streamCallbacks : List Nat
  workerGen : Nat
  workerAlive : Bool
deriving DecidableEq, Repr

/-- `Map.set` on a table of correlation ids: adds the key if absent. -/
def tblSet (l : List Nat) (i : Nat) : List Nat :=
  if i ∈ l then l else l ++ [i]

/-- `Map.delete` on a table of correlation ids. -/
def tblDel (l : List Nat) (i : Nat) : List Nat :=
  l.filter (fun j => j ≠ i)

/-- Observable effects of the host's worker-message handler: a stream
callback invocation, or the settlement (resolution) of a pending call
with a terminal response. -/
inductive HostEvent where
  | streamed (id : Nat) (text : Str)
  | settled (id : Nat) (resp : WorkerResponse)
deriving DecidableEq, Repr

/-- The `worker.onmessage` handler installed by `setupWorkerHandlers`:
a message with `streaming` set and a defined `stdout` invokes the
registered stream callback (if any) and returns; otherwise, if the id
has a pending entry, that entry and the id's stream callback are
deleted and the promise is resolved with the message. -/
def handleWorkerMessage (st : ProxyState) (m : WorkerResponse) :
    ProxyState × List HostEvent :=
  if m.streaming && m.stdout.isSome then
    (st, if m.id ∈ st.streamCallbacks then [.streamed m.id (m.stdout.getD [])] else [])
  else
    if m.id ∈ st.pending then
      ({ st with pending := tblDel st.pending m.id
                 streamCallbacks := tblDel st.streamCallbacks m.id },
       [.settled m.id m])
    else
      (st, [])

/-- Deliver a sequence of worker messages to the handler, collecting
the events in order. -/
def processMessages (st : ProxyState) : List WorkerResponse → ProxyState × List HostEvent
  | [] => (st, [])
  | m :: ms =>
    ((processMessages (handleWorkerMessage st m).1 ms).1,
     (handleWorkerMessage st m).2 ++ (processMessages (handleWorkerMessage st m).1 ms).2)

/-- Number of settlement events for a given correlation id. -/
def countSettled (i : Nat) (es : List HostEvent) : Nat :=
  (es.filter (fun e => match e with | .settled j _ => j = i | _ => false)).length

/-- A request posted by the proxy onto the worker channel (only the two
kinds that `run` sends matter to the claims). -/
inductive ProxyReq where
  | runReq (id : Nat) (code : Str) (streaming : Bool)
  | initReq (id : Nat) (preload : Option (List Str))
deriving DecidableEq, Repr

/-- How the `Promise.race` in `run` resolves: either the run promise
completes first with a terminal response, or the timer fires first. -/
inductive RaceOutcome where
  | completed (resp : WorkerResponse)
  | timerFired
deriving DecidableEq, Repr

/-- The awaiting behaviour of one `run` call: without a timeout the
terminal response is awaited directly; with a timeout the pending call
is raced against the timer. -/
inductive RunAwait where
  | noTimeout (resp : WorkerResponse)
  | withTimeout (t : Nat) (race : RaceOutcome)
deriving DecidableEq, Repr

/-- Decimal rendering of a timeout value, as interpolated into the
synthetic error message. -/
def natStr (n : Nat) : Str := (Nat.repr n).toList

/-- The synthetic failed result returned when the timer fires first. -/
def timeoutResult (t : Nat) : RunResult :=
  { success := false
    stdout := []
    stderr := []
    result := none
    artifacts := []
    error := some (chars "Execution timed out after " ++ natStr t ++ chars "ms")
    timedOut := some true }

/-- `Sandpy.run(code, {timeout, onOutput})`, one call end to end:
assign the next correlation id, register the per-call stream callback
when a sink is given, send the `run` request, then either await the
terminal response or race it against the timer. When the timer fires
first, the current worker is terminated unconditionally, a fresh worker
is spawned with handlers installed, an `init` request replaying the
original preload options is sent and its response awaited (`initResp`),
and the synthetic timeout result is returned. Returns the new proxy
state, the caller-visible result, and the requests sent, tagged with
the generation of the worker they were posted to. -/
def runCall (st : ProxyState) (opts : CreateOptions) (code : Str)
    (hasOnOutput : Bool) (aw : RunAwait) (initResp : WorkerResponse) :
    ProxyState × RunResult × List (Nat × ProxyReq) :=
  let mid := st.messageId + 1
  let st1 : ProxyState :=
    { st with
      messageId := mid
      streamCallbacks := if hasOnOutput then tblSet st.streamCallbacks mid else st.streamCallbacks
      pending := tblSet st.pending mid }
  let sentRun := (st.workerGen, ProxyReq.runReq mid code hasOnOutput)
  match aw with
  | .noTimeout resp =>
    ((handleWorkerMessage st1 resp).1, formatRunResult resp, [sentRun])
  | .withTimeout _ (.completed resp) =>
    ((handleWorkerMessage st1 resp).1, formatRunResult resp, [sentRun])
  | .withTimeout t .timerFired =>
    let st2 := { st1 with workerAlive := false }
    let st3 := { st2 with workerGen := st2.workerGen + 1, workerAlive := true }
    let iid := st3.messageId + 1
    let st4 := { st3 with messageId := iid, pending := tblSet st3.pending iid }
    let sentInit := (st3.workerGen, ProxyReq.initReq iid opts.preload)
    let st5 := (handleWorkerMessage st4 initResp).1
    (st5, timeoutResult t, [sentRun, sentInit])

/-- The caller-visible outcome of `Sandpy.readFile`: the content field
(defaulted through `||`) on success, a thrown error otherwise. -/
def readFileResult (r : WorkerResponse) : Except Str Str :=
  if r.success then .ok (jsOrStr r.content [])
  else .error (jsOrStr r.error (chars "Failed to read file"))

end Sandpy

section Lemmas

open PyWorker Sandpy

/-- Number of occurrences of a character in a string. -/
def countCh : Str → Char → Nat
  | [], _ => 0
  | a :: s, c => (if a = c then 1 else 0) + countCh s c

theorem strIdxOf_eq_none_of_countCh (s : Str) (c : Char) (h : countCh s c = 0) :
    strIdxOf s c = none := by
  induction s with
  | nil => rfl
  | cons a s ih =>
    by_cases hac : a = c
    · simp [countCh, hac] at h
    · simp [countCh, hac] at h
      simp [strIdxOf, hac, ih h]

theorem countCh_drop_of_strIdxOf (s : Str) (c : Char) (k : Nat)
    (h : strIdxOf s c = some k) :
    countCh (s.drop (k + 1)) c + 1 = countCh s c := by
  induction s generalizing k with
  | nil => simp [strIdxOf] at h
  | cons a s ih =>
    by_cases hac : a = c
    · simp [strIdxOf, hac] at h
      subst h
      simp [countCh, hac, Nat.add_comm]
    · simp [strIdxOf, hac] at h
      obtain ⟨k', hk', rfl⟩ := h
      have := ih k' hk'
      simpa [countCh, hac] using this

theorem alGet_alSet_self (m : List (Str × Str)) (k v : Str) :
    alGet (alSet m k v) k = some v := by
  induction m with
  | nil => simp [alSet, alGet]
  | cons kv rest ih =>
    by_cases h : kv.1 = k
    · simp [alSet, alGet, h]
    · simp [alSet, alGet, h, ih]

theorem parseArtifactsLines_snd (ls : List Str) :
    (parseArtifactsLines ls).2 = ls.filter (fun l => !(jsStartsWith l ARTIFACT_MARKER)) := by
  induction ls with
  | nil => rfl
  | cons line ls ih =>
    by_cases h : jsStartsWith line ARTIFACT_MARKER
    · cases ha : lineArtifact line <;>
        simp [parseArtifactsLines, h, ha, ih, List.filter]
    · simp only [Bool.not_eq_true] at h
      simp [parseArtifactsLines, h, ih, List.filter]

theorem flatten_filter_sublist (l : List Str) (p : Str → Bool) (x : Str) :
    List.Sublist ((l.filter p).flatten) ((l.map (fun f => f ++ x)).flatten) := by
  induction l with
  | nil => simp
  | cons a l ih =>
    by_cases h : p a
    · simpa [h] using List.Sublist.append (List.sublist_append_left a x) ih
    · simp only [List.filter, h, List.map, List.flatten]
      exact ih.trans (List.sublist_append_right _ _)

theorem mem_streamChunks (mid : Nat) (b : Bool) (frs : List Str) (s : WorkerResponse)
    (h : s ∈ streamChunks mid b frs) : s.streaming = true ∧ s.id = mid := by
  cases b with
  | false => simp [streamChunks] at h
  | true =>
    simp only [streamChunks, if_true, List.mem_map] at h
    obtain ⟨f, _, hf⟩ := h
    subst hf
    exact ⟨rfl, rfl⟩

theorem mem_tblSet_self (l : List Nat) (i : Nat) : i ∈ tblSet l i := by
  by_cases h : i ∈ l <;> simp [tblSet, h]

theorem mem_tblSet_of_mem (l : List Nat) (i j : Nat) (h : i ∈ l) : i ∈ tblSet l j := by
  by_cases hj : j ∈ l <;> simp [tblSet, hj, h]

theorem mem_tblDel (l : List Nat) (i j : Nat) (h : i ∈ l) (hne : i ≠ j) :
    i ∈ tblDel l j := by
  simp [tblDel, List.mem_filter, h, hne]

theorem not_mem_tblDel_self (l : List Nat) (i : Nat) : i ∉ tblDel l i := by
  simp [tblDel, List.mem_filter]

end Lemmas

section ClaimC2

open PyWorker

/-- C2, counterexample: the claim states that a malformed marker line
(here one colon after the prefix, so no type/alt/content split) remains
in the returned stdout as plain text. In the code, the marker branch of
`parseArtifacts` neither records an artifact nor pushes the line onto
the clean lines, so the line is dropped: the returned stdout is empty,
not the original line. -/
theorem c2_counterexample :
    (parseArtifacts (chars "__SANDPY_ARTIFACT__:image/png:rest")).artifacts = []
    ∧ (parseArtifacts (chars "__SANDPY_ARTIFACT__:image/png:rest")).cleanOutput = []
    ∧ (parseArtifacts (chars "__SANDPY_ARTIFACT__:image/png:rest")).cleanOutput
        ≠ chars "__SANDPY_ARTIFACT__:image/png:rest" := by
  decide

/-- C2, amended: an output line that begins with the artifact marker
prefix but has fewer than two colons after the prefix is not parsed
into an artifact, and it does not pass through into the returned
stdout either — every marker-prefixed line is removed from the clean
output, well-formed or not. -/
theorem c2_malformed_marker_lines_dropped (output line : Str)
    (hmem : line ∈ splitNl output)
    (hmark : jsStartsWith line ARTIFACT_MARKER = true)
    (hmal : countCh (line.drop ARTIFACT_MARKER.length) ':' < 2) :
    lineArtifact line = none
    ∧ line ∉ (parseArtifactsLines (splitNl output)).2
    ∧ (parseArtifacts output).cleanOutput
        = joinNl ((splitNl output).filter (fun l => !(jsStartsWith l ARTIFACT_MARKER))) := by
  have _ := hmem
  have hart : lineArtifact line = none := by
    unfold lineArtifact
    cases h1 : strIdxOf (line.drop ARTIFACT_MARKER.length) ':' with
    | none =>
      simp [jsIndexOfFrom, List.drop_zero, h1]
    | some k =>
      have hcnt := countCh_drop_of_strIdxOf (line.drop ARTIFACT_MARKER.length) ':' k h1
      have h0 : countCh ((line.drop ARTIFACT_MARKER.length).drop (k + 1)) ':' = 0 := by
        omega
      have h2 := strIdxOf_eq_none_of_countCh _ ':' h0
      have h2' : strIdxOf (line.drop (ARTIFACT_MARKER.length + (k + 1))) ':' = none := by
        rw [← List.drop_drop (k + 1) ARTIFACT_MARKER.length line]
        exact h2
      simp [jsIndexOfFrom, List.drop_zero, h1, h2']
  refine ⟨hart, ?_, ?_⟩
  · rw [parseArtifactsLines_snd]
    simp [List.mem_filter, hmark]
  · unfold parseArtifacts
    rw [parseArtifactsLines_snd]

end ClaimC2

section ClaimC5

open PyWorker

/-- C5 (code bug): running the bare expression `2 + 2` — the
interpreter prints nothing and returns the value `4` — produces a
terminal response whose `stdout` is the empty string; the value is
carried only in the separate `result` field, and the host-side
`formatRunResult` therefore hands the caller `stdout = ""`, not
`stdout = "4"` as the repository's own tests
(`expect(result.stdout).toBe('4')`) and the earlier worker
(`output = String(result)` when no output was printed) require. -/
theorem c5_bare_expression_value :
    (workerDispatch ⟨[], none, [], true⟩
        ⟨.ok ⟨[]⟩, ⟨[], [], .ok (some (JsVal.num 4))⟩, none, .ok [], .ok ()⟩
        1 (.run (some (chars "2 + 2")) false)).2
      = [{ id := 1, success := true, stdout := some [], stderr := some [],
           result := some (JsVal.num 4), artifacts := some [], output := some [] }]
    ∧ (Sandpy.formatRunResult
        { id := 1, success := true, stdout := some [], stderr := some [],
          result := some (JsVal.num 4), artifacts := some [], output := some [] }).stdout = []
    ∧ chars "4" ≠ ([] : Str) := by
  decide

end ClaimC5

section ClaimC2W

open PyWorker

/-- C2, witness for the amended theorem at a concrete three-line output
whose middle line is a marker line with a single colon after the
prefix. -/
theorem c2_malformed_marker_lines_dropped_witness :
    (chars "__SANDPY_ARTIFACT__:image/png:rest"
        ∈ splitNl (chars "hello\n__SANDPY_ARTIFACT__:image/png:rest\nworld"))
    ∧ (jsStartsWith (chars "__SANDPY_ARTIFACT__:image/png:rest") ARTIFACT_MARKER = true)
    ∧ (countCh ((chars "__SANDPY_ARTIFACT__:image/png:rest").drop ARTIFACT_MARKER.length) ':' < 2)
    ∧ (lineArtifact (chars "__SANDPY_ARTIFACT__:image/png:rest") = none
       ∧ chars "__SANDPY_ARTIFACT__:image/png:rest"
           ∉ (parseArtifactsLines
               (splitNl (chars "hello\n__SANDPY_ARTIFACT__:image/png:rest\nworld"))).2
       ∧ (parseArtifacts (chars "hello\n__SANDPY_ARTIFACT__:image/png:rest\nworld")).cleanOutput
           = joinNl ((splitNl (chars "hello\n__SANDPY_ARTIFACT__:image/png:rest\nworld")).filter
               (fun l => !(jsStartsWith l ARTIFACT_MARKER)))) :=
  ⟨by decide, by decide, by decide,
    c2_malformed_marker_lines_dropped _ _ (by decide) (by decide) (by decide)⟩

end ClaimC2W

section ClaimC8

open PyWorker

/-- C8, counterexample: with streaming enabled and a single captured
fragment consisting of a character followed by a trailing space, the
fragment is forwarded verbatim as a streaming chunk, but the terminal
stdout is right-trimmed (`stdout.trimEnd()`), so the concatenation of
the streamed fragments is not a subsequence of the final stdout. -/
theorem c8_counterexample :
    (workerDispatch ⟨[], none, [], true⟩
        ⟨.ok ⟨[]⟩, ⟨[chars "x "], [], .ok none⟩, none, .ok [], .ok ()⟩
        1 (.run (some (chars "print(1)")) true)).2
      = [{ id := 1, streaming := true, stdout := some (chars "x ") },
         { id := 1, success := true, stdout := some (chars "x"), stderr := some [],
           artifacts := some [], output := some (chars "x") }]
    ∧ (Sandpy.formatRunResult
        { id := 1, success := true, stdout := some (chars "x"), stderr := some [],
          artifacts := some [], output := some (chars "x") }).stdout = chars "x"
    ∧ ¬ List.Sublist (chars "x ") (chars "x") := by
  decide

/-- C8, amended: during a streaming run every captured fragment that
does not begin with the artifact marker is forwarded, in order, as a
streaming message tagged with the run's request id and posted before
the terminal response; marker-prefixed fragments are never forwarded.
The concatenation of the streamed fragments is a subsequence of the
captured stdout buffer as accumulated (before trailing-whitespace
trimming and artifact extraction) — trimming can remove streamed
trailing whitespace from the final stdout, so the subsequence relation
is only guaranteed against the untrimmed buffer. -/
theorem c8_streaming_forwarding (st : WorkerState) (o : Oracle) (id : Nat) (code : Str)
    (hpy : st.pyInit = true) (hcode : code ≠ []) :
    (workerDispatch st o id (.run (some code) true)).2
      = (o.runEff.fragments.filter (fun f => !(jsStartsWith f ARTIFACT_MARKER))).map
          (fun f => { id := id, streaming := true, stdout := some f }) ++
        [runTerminalResp id (runPython code id true o.runEff).1]
    ∧ (runTerminalResp id (runPython code id true o.runEff).1).streaming = false
    ∧ List.Sublist
        ((o.runEff.fragments.filter (fun f => !(jsStartsWith f ARTIFACT_MARKER))).flatten)
        (buffer o.runEff.fragments) := by
  have hce : code.isEmpty = false := by cases code <;> simp_all
  have hsub :=
    flatten_filter_sublist o.runEff.fragments (fun f => !(jsStartsWith f ARTIFACT_MARKER)) ['\n']
  refine ⟨?_, rfl, by simpa [buffer] using hsub⟩
  cases ho : o.runEff.outcome with
  | ok v => simp [workerDispatch, hce, hpy, runPython, ho, streamChunks]
  | error m => simp [workerDispatch, hce, hpy, runPython, ho, streamChunks]

/-- C8, witness for the amended theorem: a streaming run with one
plain fragment and one marker fragment. -/
theorem c8_streaming_forwarding_witness :
    ((⟨[], none, [], true⟩ : WorkerState).pyInit = true)
    ∧ (chars "hi" ≠ ([] : Str))
    ∧ ((workerDispatch ⟨[], none, [], true⟩
          ⟨.ok ⟨[]⟩, ⟨[chars "a", chars "__SANDPY_ARTIFACT__:t:u:v"], [], .ok none⟩,
           none, .ok [], .ok ()⟩
          7 (.run (some (chars "hi")) true)).2
        = ((⟨.ok ⟨[]⟩, ⟨[chars "a", chars "__SANDPY_ARTIFACT__:t:u:v"], [], .ok none⟩,
            none, .ok [], .ok ()⟩ : Oracle).runEff.fragments.filter
              (fun f => !(jsStartsWith f ARTIFACT_MARKER))).map
            (fun f => { id := 7, streaming := true, stdout := some f }) ++
          [runTerminalResp 7
            (runPython (chars "hi") 7 true
              (⟨.ok ⟨[]⟩, ⟨[chars "a", chars "__SANDPY_ARTIFACT__:t:u:v"], [], .ok none⟩,
                none, .ok [], .ok ()⟩ : Oracle).runEff).1]
        ∧ (runTerminalResp 7
            (runPython (chars "hi") 7 true
              (⟨.ok ⟨[]⟩, ⟨[chars "a", chars "__SANDPY_ARTIFACT__:t:u:v"], [], .ok none⟩,
                none, .ok [], .ok ()⟩ : Oracle).runEff).1).streaming = false
        ∧ List.Sublist
            (((⟨.ok ⟨[]⟩, ⟨[chars "a", chars "__SANDPY_ARTIFACT__:t:u:v"], [], .ok none⟩,
               none, .ok [], .ok ()⟩ : Oracle).runEff.fragments.filter
                (fun f => !(jsStartsWith f ARTIFACT_MARKER))).flatten)
            (buffer (⟨.ok ⟨[]⟩, ⟨[chars "a", chars "__SANDPY_ARTIFACT__:t:u:v"], [], .ok none⟩,
              none, .ok [], .ok ()⟩ : Oracle).runEff.fragments)) :=
  ⟨by decide, by decide, c8_streaming_forwarding _ _ 7 _ (by decide) (by decide)⟩

end ClaimC8

section ClaimC4

open PyWorker

/-- C4: for a `writeFile` whose path falls under the persistence root,
when the backend is initialized (which holds for any instance whose
`init` completed successfully) the handler mirrors the content to the
Storage Backend before the success response is produced: the state
paired with the success response already contains the content under
the path's storage key, so a successful write response implies the
content is durable in the backend. -/
theorem c4_write_through (st : WorkerState) (o : Oracle) (id : Nat) (p c : Str) (b : Backend)
    (hroot : jsStartsWith p sandboxSlash = true)
    (hs : st.storage = some b)
    (hpy : st.pyInit = true) :
    (workerDispatch st o id (.write (some p) (some c))).2 = [{ id := id, success := true }]
    ∧ (workerDispatch st o id (.write (some p) (some c))).1.storage
        = some (Backend.write b (storageKey p) c)
    ∧ alGet (Backend.write b (storageKey p) c).files (storageKey p) = some c := by
  have hpe : p.isEmpty = false := by
    cases p with
    | nil => exact absurd hroot (by decide)
    | cons a t => rfl
  refine ⟨?_, ?_, alGet_alSet_self _ _ _⟩ <;>
    simp [workerDispatch, wWriteFile, hpe, hpy, hroot, hs]

/-- C4, witness at a concrete state and path under the root. -/
theorem c4_write_through_witness :
    (jsStartsWith (chars "/sandbox/a.txt") sandboxSlash = true)
    ∧ ((⟨[], some ⟨[]⟩, [], true⟩ : WorkerState).storage = some ⟨[]⟩)
    ∧ ((⟨[], some ⟨[]⟩, [], true⟩ : WorkerState).pyInit = true)
    ∧ ((workerDispatch ⟨[], some ⟨[]⟩, [], true⟩ ⟨.ok ⟨[]⟩, ⟨[], [], .ok none⟩, none, .ok [], .ok ()⟩
          3 (.write (some (chars "/sandbox/a.txt")) (some (chars "hi")))).2
        = [{ id := 3, success := true }]
       ∧ (workerDispatch ⟨[], some ⟨[]⟩, [], true⟩ ⟨.ok ⟨[]⟩, ⟨[], [], .ok none⟩, none, .ok [], .ok ()⟩
          3 (.write (some (chars "/sandbox/a.txt")) (some (chars "hi")))).1.storage
        = some (Backend.write ⟨[]⟩ (storageKey (chars "/sandbox/a.txt")) (chars "hi"))
       ∧ alGet (Backend.write ⟨[]⟩ (storageKey (chars "/sandbox/a.txt")) (chars "hi")).files
            (storageKey (chars "/sandbox/a.txt")) = some (chars "hi")) :=
  ⟨by decide, by decide, by decide,
    c4_write_through _ _ 3 _ _ _ (by decide) (by decide) (by decide)⟩

end ClaimC4

section ClaimC6

open PyWorker

/-- C6: for any path (under or outside the persistence root) and any
content, a successful `writeFile` followed by `readFile` of the same
path returns exactly the written content, through to the caller-visible
value of `Sandpy.readFile` (`response.content || ''`). -/
theorem c6_roundtrip (st : WorkerState) (o1 o2 : Oracle) (id1 id2 : Nat) (p c : Str)
    (hp : p ≠ []) (hpy : st.pyInit = true) :
    (workerDispatch st o1 id1 (.write (some p) (some c))).2 = [{ id := id1, success := true }]
    ∧ (workerDispatch (workerDispatch st o1 id1 (.write (some p) (some c))).1
        o2 id2 (.read (some p))).2
      = [{ id := id2, success := true, content := some c }]
    ∧ Sandpy.readFileResult { id := id2, success := true, content := some c } = .ok c := by
  have hpe : p.isEmpty = false := by
    cases p with
    | nil => exact absurd rfl hp
    | cons a t => rfl
  have hw : (workerDispatch st o1 id1 (.write (some p) (some c))).1.vfs = alSet st.vfs p c
      ∧ (workerDispatch st o1 id1 (.write (some p) (some c))).1.pyInit = true
      ∧ (workerDispatch st o1 id1 (.write (some p) (some c))).2
          = [{ id := id1, success := true }] := by
    by_cases hroot : jsStartsWith p sandboxSlash
    · cases hsst : st.storage with
      | some b => simp [workerDispatch, wWriteFile, hpe, hpy, hroot, hsst]
      | none => simp [workerDispatch, wWriteFile, hpe, hpy, hroot, hsst]
    · simp [workerDispatch, wWriteFile, hpe, hpy, hroot]
  obtain ⟨hv, hpy2, hresp⟩ := hw
  refine ⟨hresp, ?_, ?_⟩
  · generalize hg : (workerDispatch st o1 id1 (.write (some p) (some c))).1 = st2 at hv hpy2
    simp [workerDispatch, wReadFile, hpe, hpy2, hv, alGet_alSet_self]
  · cases c with
    | nil => rfl
    | cons a t => rfl

/-- C6, witness at a concrete path outside the persistence root. -/
theorem c6_roundtrip_witness :
    (chars "/tmp/f.txt" ≠ ([] : Str))
    ∧ ((⟨[], none, [], true⟩ : WorkerState).pyInit = true)
    ∧ ((workerDispatch ⟨[], none, [], true⟩ ⟨.ok ⟨[]⟩, ⟨[], [], .ok none⟩, none, .ok [], .ok ()⟩
          1 (.write (some (chars "/tmp/f.txt")) (some (chars "hello")))).2
        = [{ id := 1, success := true }]
       ∧ (workerDispatch
            (workerDispatch ⟨[], none, [], true⟩
              ⟨.ok ⟨[]⟩, ⟨[], [], .ok none⟩, none, .ok [], .ok ()⟩
              1 (.write (some (chars "/tmp/f.txt")) (some (chars "hello")))).1
            ⟨.ok ⟨[]⟩, ⟨[], [], .ok none⟩, none, .ok [], .ok ()⟩
            2 (.read (some (chars "/tmp/f.txt")))).2
        = [{ id := 2, success := true, content := some (chars "hello") }]
       ∧ Sandpy.readFileResult { id := 2, success := true, content := some (chars "hello") }
        = .ok (chars "hello")) :=
  ⟨by decide, by decide,
    c6_roundtrip _ _ _ 1 2 _ _ (by decide) (by decide)⟩

end ClaimC6

section ClaimC9

open PyWorker

/-- C9: the persistence boundary is the exact prefix `/sandbox/` — a
`writeFile` or `deleteFile` whose path does not begin with that prefix
(including `/sandbox` itself and sibling-named paths such as
`/sandboxy/f.txt`) leaves the Storage Backend completely unchanged,
whatever the outcome of the virtual-filesystem operation. -/
theorem c9_persistence_boundary (st : WorkerState) (o1 o2 : Oracle) (id1 id2 : Nat) (p c : Str)
    (h : jsStartsWith p sandboxSlash = false) :
    (workerDispatch st o1 id1 (.write (some p) (some c))).1.storage = st.storage
    ∧ (workerDispatch st o2 id2 (.del (some p))).1.storage = st.storage := by
  refine ⟨?_, ?_⟩
  · by_cases hpe : p.isEmpty
    · simp [workerDispatch, hpe]
    · by_cases hpy : st.pyInit = true
      · simp [workerDispatch, wWriteFile, hpe, hpy, h]
      · rw [Bool.not_eq_true] at hpy
        simp [workerDispatch, wWriteFile, hpe, hpy]
  · by_cases hpe : p.isEmpty
    · simp [workerDispatch, hpe]
    · by_cases hpy : st.pyInit = true
      · cases halg : alGet st.vfs p with
        | none => simp [workerDispatch, wDeleteFile, hpe, hpy, halg]
        | some v => simp [workerDispatch, wDeleteFile, hpe, hpy, halg, h]
      · rw [Bool.not_eq_true] at hpy
        simp [workerDispatch, wDeleteFile, hpe, hpy]

/-- C9, witness at the two boundary paths the claim singles out:
`/sandbox` itself (no trailing separator) and the sibling-named
`/sandboxy/f.txt`, against a state whose backend holds one record. -/
theorem c9_persistence_boundary_witness :
    (jsStartsWith (chars "/sandbox") sandboxSlash = false)
    ∧ (jsStartsWith (chars "/sandboxy/f.txt") sandboxSlash = false)
    ∧ ((workerDispatch ⟨[], some ⟨[(chars "k", chars "v")]⟩, [], true⟩
          ⟨.ok ⟨[]⟩, ⟨[], [], .ok none⟩, none, .ok [], .ok ()⟩
          1 (.write (some (chars "/sandbox")) (some (chars "c")))).1.storage
        = some ⟨[(chars "k", chars "v")]⟩
       ∧ (workerDispatch ⟨[], some ⟨[(chars "k", chars "v")]⟩, [], true⟩
          ⟨.ok ⟨[]⟩, ⟨[], [], .ok none⟩, none, .ok [], .ok ()⟩
          2 (.del (some (chars "/sandbox")))).1.storage
        = some ⟨[(chars "k", chars "v")]⟩)
    ∧ ((workerDispatch ⟨[], some ⟨[(chars "k", chars "v")]⟩, [], true⟩
          ⟨.ok ⟨[]⟩, ⟨[], [], .ok none⟩, none, .ok [], .ok ()⟩
          3 (.write (some (chars "/sandboxy/f.txt")) (some (chars "c")))).1.storage
        = some ⟨[(chars "k", chars "v")]⟩
       ∧ (workerDispatch ⟨[], some ⟨[(chars "k", chars "v")]⟩, [], true⟩
          ⟨.ok ⟨[]⟩, ⟨[], [], .ok none⟩, none, .ok [], .ok ()⟩
          4 (.del (some (chars "/sandboxy/f.txt")))).1.storage
        = some ⟨[(chars "k", chars "v")]⟩) :=
  ⟨by decide, by decide,
    c9_persistence_boundary _ _ _ 1 2 _ (chars "c") (by decide),
    c9_persistence_boundary _ _ _ 3 4 _ (chars "c") (by decide)⟩

end ClaimC9

section ClaimC1

open Sandpy PyWorker

/-- C1: when the timer of a `run(code, {timeout})` call fires before
the terminal response, the proxy tears the current worker channel down
unconditionally and spawns a fresh one (the worker generation
advances and the new worker is live with handlers installed), sends an
`init` request replaying the original preload configuration to the new
worker and awaits its response before returning (the init entry is
settled, hence absent from the pending table), and the call returns
the synthetic failed result with `success = false`, `timedOut = true`
and an error message naming the elapsed timeout in milliseconds; the
returned proxy state is immediately usable for subsequent calls. -/
theorem c1_timeout_recovery (st : ProxyState) (opts : CreateOptions) (code : Str)
    (t : Nat) (hasOut : Bool) (initResp : WorkerResponse)
    (hid : initResp.id = st.messageId + 2)
    (hterm : initResp.streaming = false) :
    (runCall st opts code hasOut (.withTimeout t .timerFired) initResp).2.1 = timeoutResult t
    ∧ (timeoutResult t).success = false
    ∧ (timeoutResult t).timedOut = some true
    ∧ (timeoutResult t).error
        = some (chars "Execution timed out after " ++ natStr t ++ chars "ms")
    ∧ (runCall st opts code hasOut (.withTimeout t .timerFired) initResp).1.workerGen
        = st.workerGen + 1
    ∧ (runCall st opts code hasOut (.withTimeout t .timerFired) initResp).1.workerAlive = true
    ∧ (runCall st opts code hasOut (.withTimeout t .timerFired) initResp).2.2
        = [(st.workerGen, .runReq (st.messageId + 1) code hasOut),
           (st.workerGen + 1, .initReq (st.messageId + 2) opts.preload)]
    ∧ st.messageId + 2 ∉ (runCall st opts code hasOut (.withTimeout t .timerFired) initResp).1.pending
    ∧ (runCall st opts code hasOut (.withTimeout t .timerFired) initResp).1.messageId
        = st.messageId + 2 := by
  have hmem : st.messageId + 2 ∈ tblSet (tblSet st.pending (st.messageId + 1)) (st.messageId + 2) :=
    mem_tblSet_self _ _
  refine ⟨?_, rfl, rfl, rfl, ?_, ?_, ?_, ?_, ?_⟩ <;>
    simp [runCall, handleWorkerMessage, hterm, hid, hmem, not_mem_tblDel_self]

/-- C1, witness at a fresh proxy state with a preload list and a
500 ms timeout. -/
theorem c1_timeout_recovery_witness :
    (({ id := 2 } : PyWorker.WorkerResponse).id = (⟨0, [], [], 0, true⟩ : ProxyState).messageId + 2)
    ∧ (({ id := 2 } : PyWorker.WorkerResponse).streaming = false)
    ∧ ((runCall ⟨0, [], [], 0, true⟩ ⟨some [chars "numpy"]⟩ (chars "loop") false
          (.withTimeout 500 .timerFired) { id := 2 }).2.1 = timeoutResult 500
       ∧ (timeoutResult 500).success = false
       ∧ (timeoutResult 500).timedOut = some true
       ∧ (timeoutResult 500).error
          = some (chars "Execution timed out after " ++ natStr 500 ++ chars "ms")
       ∧ (runCall ⟨0, [], [], 0, true⟩ ⟨some [chars "numpy"]⟩ (chars "loop") false
          (.withTimeout 500 .timerFired) { id := 2 }).1.workerGen = 0 + 1
       ∧ (runCall ⟨0, [], [], 0, true⟩ ⟨some [chars "numpy"]⟩ (chars "loop") false
          (.withTimeout 500 .timerFired) { id := 2 }).1.workerAlive = true
       ∧ (runCall ⟨0, [], [], 0, true⟩ ⟨some [chars "numpy"]⟩ (chars "loop") false
          (.withTimeout 500 .timerFired) { id := 2 }).2.2
          = [(0, .runReq (0 + 1) (chars "loop") false),
             (0 + 1, .initReq (0 + 2) (some [chars "numpy"]))]
       ∧ (0 : Nat) + 2 ∉ (runCall ⟨0, [], [], 0, true⟩ ⟨some [chars "numpy"]⟩ (chars "loop") false
          (.withTimeout 500 .timerFired) { id := 2 }).1.pending
       ∧ (runCall ⟨0, [], [], 0, true⟩ ⟨some [chars "numpy"]⟩ (chars "loop") false
          (.withTimeout 500 .timerFired) { id := 2 }).1.messageId = 0 + 2) :=
  ⟨by decide, by decide,
    c1_timeout_recovery _ _ _ 500 _ _ (by decide) (by decide)⟩

end ClaimC1

section ClaimC3

open Sandpy

/-- C3, counterexample: at a fresh proxy, a `run` with a timeout whose
timer fires leaves the abandoned run request's entry (id 1) in the
pending-call table — the timeout path never deletes it, so the table is
`[1]` after recovery, contradicting the claim that the entry is
discarded when the channel is forcibly torn down. -/
theorem c3_counterexample :
    (runCall ⟨0, [], [], 0, true⟩ ⟨none⟩ (chars "loop") false
      (.withTimeout 1000 .timerFired) { id := 2 }).1.pending = [1] := by
  decide

/-- C3, amended: a pending entry is removed when its terminal response
arrives (resolution deletes it); but on a timeout-forced teardown the
entry of the abandoned run request is NOT removed — it stays in the
table permanently while the caller is settled synthetically without
consulting the table. The stale entry is unreachable: the torn-down
worker can no longer post, and the id counter has strictly advanced
past the abandoned id, so no later request reuses it. -/
theorem c3_pending_lifecycle (stA : ProxyState) (m : PyWorker.WorkerResponse)
    (stB : ProxyState) (opts : CreateOptions) (code : Str) (t : Nat) (hasOut : Bool)
    (initResp : PyWorker.WorkerResponse)
    (hterm : m.streaming = false) (hmem : m.id ∈ stA.pending)
    (hiid : initResp.id = stB.messageId + 2) (hinit : initResp.streaming = false) :
    ((handleWorkerMessage stA m).1.pending = tblDel stA.pending m.id
      ∧ HostEvent.settled m.id m ∈ (handleWorkerMessage stA m).2)
    ∧ (stB.messageId + 1
        ∈ (runCall stB opts code hasOut (.withTimeout t .timerFired) initResp).1.pending
       ∧ (runCall stB opts code hasOut (.withTimeout t .timerFired) initResp).2.1
          = timeoutResult t
       ∧ (runCall stB opts code hasOut (.withTimeout t .timerFired) initResp).1.messageId
          = stB.messageId + 2) := by
  refine ⟨⟨?_, ?_⟩, ?_, ?_, ?_⟩
  · simp [handleWorkerMessage, hterm, hmem]
  · simp [handleWorkerMessage, hterm, hmem]
  · have h1 : stB.messageId + 1 ∈ tblSet (tblSet stB.pending (stB.messageId + 1)) (stB.messageId + 2) :=
      mem_tblSet_of_mem _ _ _ (mem_tblSet_self _ _)
    have h2 : stB.messageId + 1
        ∈ tblDel (tblSet (tblSet stB.pending (stB.messageId + 1)) (stB.messageId + 2))
            (stB.messageId + 2) :=
      mem_tblDel _ _ _ h1 (by omega)
    have hm2 : stB.messageId + 2
        ∈ tblSet (tblSet stB.pending (stB.messageId + 1)) (stB.messageId + 2) :=
      mem_tblSet_self _ _
    simp [runCall, handleWorkerMessage, hinit, hiid, hm2, h2]
  · simp [runCall]
  · simp [runCall, handleWorkerMessage, hinit, hiid, mem_tblSet_self]

/-- C3, witness: the normal-resolution conjunct at a one-entry table
and the timeout conjunct at a fresh proxy. -/
theorem c3_pending_lifecycle_witness :
    (({ id := 5, success := true } : PyWorker.WorkerResponse).streaming = false)
    ∧ (({ id := 5, success := true } : PyWorker.WorkerResponse).id
        ∈ (⟨5, [5], [], 0, true⟩ : ProxyState).pending)
    ∧ (({ id := 2 } : PyWorker.WorkerResponse).id = (⟨0, [], [], 0, true⟩ : ProxyState).messageId + 2)
    ∧ (({ id := 2 } : PyWorker.WorkerResponse).streaming = false)
    ∧ (((handleWorkerMessage ⟨5, [5], [], 0, true⟩ { id := 5, success := true }).1.pending
          = tblDel (⟨5, [5], [], 0, true⟩ : ProxyState).pending 5
        ∧ HostEvent.settled 5 { id := 5, success := true }
          ∈ (handleWorkerMessage ⟨5, [5], [], 0, true⟩ { id := 5, success := true }).2)
       ∧ ((0 : Nat) + 1
            ∈ (runCall ⟨0, [], [], 0, true⟩ ⟨none⟩ (chars "loop") false
                (.withTimeout 1000 .timerFired) { id := 2 }).1.pending
          ∧ (runCall ⟨0, [], [], 0, true⟩ ⟨none⟩ (chars "loop") false
                (.withTimeout 1000 .timerFired) { id := 2 }).2.1 = timeoutResult 1000
          ∧ (runCall ⟨0, [], [], 0, true⟩ ⟨none⟩ (chars "loop") false
                (.withTimeout 1000 .timerFired) { id := 2 }).1.messageId = 0 + 2)) :=
  ⟨by decide, by decide, by decide, by decide,
    c3_pending_lifecycle _ _ _ _ _ 1000 _ _ (by decide) (by decide) (by decide) (by decide)⟩

end ClaimC3

section ClaimC10

open Sandpy PyWorker

theorem handle_pending_subset (st : ProxyState) (m : WorkerResponse) (i : Nat)
    (hi : i ∈ (handleWorkerMessage st m).1.pending) : i ∈ st.pending := by
  unfold handleWorkerMessage at hi
  split at hi
  · exact hi
  · split at hi
    · have hi' : i ∈ tblDel st.pending m.id := hi
      exact (List.mem_filter.mp hi').1
    · exact hi

theorem settled_mem_handle (st : ProxyState) (m : WorkerResponse) (i : Nat) (r : WorkerResponse)
    (h : HostEvent.settled i r ∈ (handleWorkerMessage st m).2) :
    i = m.id ∧ r = m ∧ m.id ∈ st.pending
      ∧ (handleWorkerMessage st m).1.pending = tblDel st.pending m.id
      ∧ (handleWorkerMessage st m).1.streamCallbacks = tblDel st.streamCallbacks m.id
      ∧ ¬((m.streaming && m.stdout.isSome) = true) := by
  unfold handleWorkerMessage at h
  split at h
  · split at h <;> simp at h
  · rename_i hc
    split at h
    · rename_i hmem
      simp only [List.mem_singleton, HostEvent.settled.injEq] at h
      obtain ⟨h1, h2⟩ := h
      subst h1
      subst h2
      exact ⟨rfl, rfl, hmem, by simp [handleWorkerMessage, hc, hmem],
        by simp [handleWorkerMessage, hc, hmem], hc⟩
    · simp at h

theorem handle_events_len (st : ProxyState) (m : WorkerResponse) :
    (handleWorkerMessage st m).2.length ≤ 1 := by
  unfold handleWorkerMessage
  split
  · split <;> simp
  · split <;> simp

theorem countSettled_append (i : Nat) (es es' : List HostEvent) :
    countSettled i (es ++ es') = countSettled i es + countSettled i es' := by
  unfold countSettled
  rw [List.filter_append, List.length_append]

theorem countSettled_handle_le_one (st : ProxyState) (m : WorkerResponse) (i : Nat) :
    countSettled i (handleWorkerMessage st m).2 ≤ 1 := by
  unfold countSettled
  exact le_trans (List.length_filter_le _ _) (handle_events_len st m)

theorem exists_settled_of_countSettled_pos (es : List HostEvent) (i : Nat)
    (h : 0 < countSettled i es) : ∃ r, HostEvent.settled i r ∈ es := by
  unfold countSettled at h
  rw [List.length_pos] at h
  obtain ⟨e, he⟩ := List.exists_mem_of_ne_nil _ h
  obtain ⟨he1, he2⟩ := List.mem_filter.mp he
  cases e with
  | streamed j s => simp at he2
  | settled j r =>
    have hj : j = i := by simpa using he2
    subst hj
    exact ⟨r, he1⟩

theorem countSettled_zero_of_not_pending (ms : List WorkerResponse) (st : ProxyState) (i : Nat)
    (h : i ∉ st.pending) : countSettled i (processMessages st ms).2 = 0 := by
  induction ms generalizing st with
  | nil => rfl
  | cons m ms ih =>
    have h1 : countSettled i (handleWorkerMessage st m).2 = 0 := by
      by_contra hne
      obtain ⟨r, hr⟩ :=
        exists_settled_of_countSettled_pos _ _ (Nat.pos_of_ne_zero hne)
      have hm := settled_mem_handle st m i r hr
      exact h (by rw [hm.1]; exact hm.2.2.1)
    have h2 : i ∉ (handleWorkerMessage st m).1.pending :=
      fun hmm => h (handle_pending_subset st m i hmm)
    show countSettled i
      ((handleWorkerMessage st m).2 ++ (processMessages (handleWorkerMessage st m).1 ms).2) = 0
    rw [countSettled_append, h1, ih _ h2]

theorem countSettled_le_one_proc (ms : List WorkerResponse) (st : ProxyState) (i : Nat) :
    countSettled i (processMessages st ms).2 ≤ 1 := by
  induction ms generalizing st with
  | nil => simp [processMessages, countSettled]
  | cons m ms ih =>
    show countSettled i
      ((handleWorkerMessage st m).2 ++ (processMessages (handleWorkerMessage st m).1 ms).2) ≤ 1
    rw [countSettled_append]
    by_cases hz : countSettled i (handleWorkerMessage st m).2 = 0
    · rw [hz]
      simpa using ih (handleWorkerMessage st m).1
    · obtain ⟨r, hr⟩ :=
        exists_settled_of_countSettled_pos _ _ (Nat.pos_of_ne_zero hz)
      have hm := settled_mem_handle st m i r hr
      have hnp : i ∉ (handleWorkerMessage st m).1.pending := by
        rw [hm.2.2.2.1, hm.1]
        exact not_mem_tblDel_self _ _
      have h0 := countSettled_zero_of_not_pending ms _ i hnp
      have hle := countSettled_handle_le_one st m i
      omega

/-- C10: a message with `streaming` set and a defined `stdout` never
settles a pending call — the handler leaves the proxy state untouched
and at most invokes the stream callback; a message that does settle a
pending entry is a non-streaming one (for the well-formed messages the
worker posts), and settlement deletes both the pending entry and the
stream callback for that id first; consequently each request id is
settled at most once over any arriving message sequence, duplicates
and late messages included. -/
theorem c10_settlement (st stB stC : ProxyState) (m mB : WorkerResponse) (t : Str)
    (msgs : List WorkerResponse) (i iB : Nat) (rB : WorkerResponse)
    (hstream : m.streaming = true) (hsd : m.stdout = some t)
    (hwfB : mB.streaming = true → mB.stdout.isSome = true)
    (hsettled : HostEvent.settled iB rB ∈ (handleWorkerMessage stB mB).2) :
    ((handleWorkerMessage st m).1 = st
      ∧ ∀ e ∈ (handleWorkerMessage st m).2, ∃ s, e = HostEvent.streamed m.id s)
    ∧ (mB.streaming = false ∧ iB = mB.id
       ∧ (handleWorkerMessage stB mB).1.pending = tblDel stB.pending mB.id
       ∧ (handleWorkerMessage stB mB).1.streamCallbacks = tblDel stB.streamCallbacks mB.id)
    ∧ countSettled i (processMessages stC msgs).2 ≤ 1 := by
  have hm := settled_mem_handle stB mB iB rB hsettled
  have hBs : mB.streaming = false := by
    cases hb : mB.streaming
    · rfl
    · exact absurd (by simp [hb, hwfB hb]) hm.2.2.2.2.2
  refine ⟨⟨?_, ?_⟩, ⟨hBs, hm.1, hm.2.2.2.1, hm.2.2.2.2.1⟩, countSettled_le_one_proc msgs stC i⟩
  · simp [handleWorkerMessage, hstream, hsd]
  · intro e he
    by_cases hcb : m.id ∈ st.streamCallbacks
    · simp [handleWorkerMessage, hstream, hsd, hcb] at he
      exact ⟨t, he⟩
    · simp [handleWorkerMessage, hstream, hsd, hcb] at he

/-- C10, witness: a streaming chunk against a state with a registered
callback, a terminal response settling a one-entry table, and a
duplicated terminal message sequence. -/
theorem c10_settlement_witness :
    (({ id := 1, streaming := true, stdout := some (chars "h") } : WorkerResponse).streaming = true)
    ∧ (({ id := 1, streaming := true, stdout := some (chars "h") } : WorkerResponse).stdout
        = some (chars "h"))
    ∧ (({ id := 2, success := true } : WorkerResponse).streaming = true
        → ({ id := 2, success := true } : WorkerResponse).stdout.isSome = true)
    ∧ (HostEvent.settled 2 ({ id := 2, success := true } : WorkerResponse)
        ∈ (handleWorkerMessage ⟨3, [2], [], 0, true⟩ { id := 2, success := true }).2)
    ∧ (((handleWorkerMessage ⟨3, [2], [1], 0, true⟩
            { id := 1, streaming := true, stdout := some (chars "h") }).1
          = (⟨3, [2], [1], 0, true⟩ : ProxyState)
        ∧ ∀ e ∈ (handleWorkerMessage ⟨3, [2], [1], 0, true⟩
            { id := 1, streaming := true, stdout := some (chars "h") }).2,
            ∃ s, e = HostEvent.streamed
              ({ id := 1, streaming := true, stdout := some (chars "h") } : WorkerResponse).id s)
       ∧ (({ id := 2, success := true } : WorkerResponse).streaming = false
          ∧ (2 : Nat) = ({ id := 2, success := true } : WorkerResponse).id
          ∧ (handleWorkerMessage ⟨3, [2], [], 0, true⟩ { id := 2, success := true }).1.pending
              = tblDel (⟨3, [2], [], 0, true⟩ : ProxyState).pending
                  ({ id := 2, success := true } : WorkerResponse).id
          ∧ (handleWorkerMessage ⟨3, [2], [], 0, true⟩
              { id := 2, success := true }).1.streamCallbacks
              = tblDel (⟨3, [2], [], 0, true⟩ : ProxyState).streamCallbacks
                  ({ id := 2, success := true } : WorkerResponse).id)
       ∧ countSettled 2
          (processMessages ⟨3, [2], [], 0, true⟩
            [{ id := 2, success := true }, { id := 2, success := true }]).2 ≤ 1) :=
  ⟨by decide, by decide, by decide, by decide,
    c10_settlement ⟨3, [2], [1], 0, true⟩ ⟨3, [2], [], 0, true⟩ ⟨3, [2], [], 0, true⟩
      { id := 1, streaming := true, stdout := some (chars "h") } { id := 2, success := true }
      (chars "h") [{ id := 2, success := true }, { id := 2, success := true }] 2 2
      { id := 2, success := true }
      (by decide) (by decide) (by decide) (by decide)⟩

end ClaimC10

section ClaimC7

open PyWorker

theorem truthy_opt_ne (e : Option Str) (h : jsTruthyOptStr e = true) :
    e ≠ none ∧ e ≠ some [] := by
  cases e with
  | none => simp [jsTruthyOptStr] at h
  | some s =>
    cases s with
    | nil => simp [jsTruthyOptStr] at h
    | cons a t => simp

theorem filter_streamChunks_nil (mid : Nat) (b : Bool) (frs : List Str) :
    (streamChunks mid b frs).filter (fun mm => mm.streaming = false) = [] := by
  rw [List.filter_eq_nil_iff]
  intro s hs
  have := mem_streamChunks mid b frs s hs
  simp [this.1]

theorem single_resp_good (id : Nat) (r : WorkerResponse) (hs : r.streaming = false)
    (hi : r.id = id) (he : r.success = false → r.error ≠ none ∧ r.error ≠ some []) :
    ∃ streams resp, [r] = streams ++ [resp]
      ∧ (∀ s ∈ streams, s.streaming = true ∧ s.id = id)
      ∧ resp.streaming = false ∧ resp.id = id
      ∧ (resp.success = false → resp.error ≠ none ∧ resp.error ≠ some [])
      ∧ [r].filter (fun mm => mm.streaming = false) = [resp] := by
  refine ⟨[], r, rfl, by simp, hs, hi, he, ?_⟩
  simp [hs]

theorem errResp_good (id : Nat) (m : Str) (hm : m ≠ []) :
    ∃ streams resp, [errResp id m] = streams ++ [resp]
      ∧ (∀ s ∈ streams, s.streaming = true ∧ s.id = id)
      ∧ resp.streaming = false ∧ resp.id = id
      ∧ (resp.success = false → resp.error ≠ none ∧ resp.error ≠ some [])
      ∧ [errResp id m].filter (fun mm => mm.streaming = false) = [resp] :=
  single_resp_good id _ rfl rfl (fun _ => ⟨by simp [errResp], by simp [errResp, hm]⟩)

theorem okResp_good (id : Nat) (r : WorkerResponse) (hs : r.streaming = false)
    (hi : r.id = id) (hsucc : r.success = true) :
    ∃ streams resp, [r] = streams ++ [resp]
      ∧ (∀ s ∈ streams, s.streaming = true ∧ s.id = id)
      ∧ resp.streaming = false ∧ resp.id = id
      ∧ (resp.success = false → resp.error ≠ none ∧ resp.error ≠ some [])
      ∧ [r].filter (fun mm => mm.streaming = false) = [resp] :=
  single_resp_good id r hs hi (fun hfalse => by rw [hsucc] at hfalse; exact absurd hfalse (by decide))

/-- C7: for every incoming request the dispatch loop posts exactly one
terminal (non-streaming) response, carrying the request's id, after any
streaming chunks; every handler exception — unknown kinds included — is
caught at the dispatch boundary and converted into a response with
`success = false` and a non-empty `error` string (given that the
external collaborators' exceptions carry non-empty messages, which is
what `Oracle.msgsOk` states). -/
theorem c7_single_terminal_response (st : WorkerState) (o : Oracle) (id : Nat) (k : ReqKind)
    (ho : o.msgsOk = true) :
    ∃ streams resp,
      (workerDispatch st o id k).2 = streams ++ [resp]
      ∧ (∀ s ∈ streams, s.streaming = true ∧ s.id = id)
      ∧ resp.streaming = false
      ∧ resp.id = id
      ∧ (resp.success = false → resp.error ≠ none ∧ resp.error ≠ some [])
      ∧ ((workerDispatch st o id k).2.filter (fun mm => mm.streaming = false)) = [resp] := by
  simp only [Oracle.msgsOk, Bool.and_eq_true] at ho
  obtain ⟨⟨⟨hoInit, hoInstall⟩, hoSnap⟩, hoRestore⟩ := ho
  cases k with
  | init preload =>
    cases hres : o.initRes with
    | ok b =>
      have hpost : (workerDispatch st o id (.init preload)).2 = [{ id := id, success := true }] := by
        simp [workerDispatch, wInit, hres]
      rw [hpost]
      exact okResp_good id _ rfl rfl rfl
    | error m =>
      have hm : m ≠ [] := by
        rw [hres] at hoInit
        simpa [exceptMsgOk, List.isEmpty_iff] using hoInit
      have hpost : (workerDispatch st o id (.init preload)).2 = [errResp id m] := by
        simp [workerDispatch, wInit, hres]
      rw [hpost]
      exact errResp_good id m hm
  | run code streamFlag =>
    cases code with
    | none =>
      exact (by simp [workerDispatch] : (workerDispatch st o id (.run none streamFlag)).2
        = [errResp id (chars "No code provided")]) ▸ errResp_good id _ (by decide)
    | some c =>
      by_cases hpe : c.isEmpty
      · have hpost : (workerDispatch st o id (.run (some c) streamFlag)).2
            = [errResp id (chars "No code provided")] := by
          simp [workerDispatch, hpe]
        rw [hpost]
        exact errResp_good id _ (by decide)
      · by_cases hpy : st.pyInit = true
        · have hpost : (workerDispatch st o id (.run (some c) streamFlag)).2
              = streamChunks id streamFlag o.runEff.fragments
                ++ [runTerminalResp id (runPython c id streamFlag o.runEff).1] := by
            cases hout : o.runEff.outcome <;>
              simp [workerDispatch, hpe, hpy, runPython, streamChunks, hout]
          rw [hpost]
          refine ⟨streamChunks id streamFlag o.runEff.fragments,
            runTerminalResp id (runPython c id streamFlag o.runEff).1, rfl,
            ?_, rfl, rfl, ?_, ?_⟩
          · intro s hs
            exact mem_streamChunks id streamFlag o.runEff.fragments s hs
          · intro hfail
            have ht : jsTruthyOptStr (runPython c id streamFlag o.runEff).1.error = true := by
              have : (!(jsTruthyOptStr (runPython c id streamFlag o.runEff).1.error)) = false :=
                hfail
              simpa using this
            exact truthy_opt_ne _ ht
          · rw [List.filter_append, filter_streamChunks_nil]
            simp [runTerminalResp]
        · rw [Bool.not_eq_true] at hpy
          have hpost : (workerDispatch st o id (.run (some c) streamFlag)).2
              = [errResp id pyNotInit] := by
            simp [workerDispatch, hpe, hpy]
          rw [hpost]
          exact errResp_good id _ (by decide)
  | write path content =>
    cases path with
    | none =>
      have hpost : (workerDispatch st o id (.write none content)).2
          = [errResp id (chars "Path and content required")] := by
        cases content <;> simp [workerDispatch]
      rw [hpost]
      exact errResp_good id _ (by decide)
    | some p =>
      cases content with
      | none =>
        have hpost : (workerDispatch st o id (.write (some p) none)).2
            = [errResp id (chars "Path and content required")] := by
          simp [workerDispatch]
        rw [hpost]
        exact errResp_good id _ (by decide)
      | some c =>
        by_cases hpe : p.isEmpty
        · have hpost : (workerDispatch st o id (.write (some p) (some c))).2
              = [errResp id (chars "Path and content required")] := by
            simp [workerDispatch, hpe]
          rw [hpost]
          exact errResp_good id _ (by decide)
        · by_cases hpy : st.pyInit = true
          · have hpost : (workerDispatch st o id (.write (some p) (some c))).2
                = [{ id := id, success := true }] := by
              by_cases hroot : jsStartsWith p sandboxSlash
              · cases hsst : st.storage with
                | some b => simp [workerDispatch, wWriteFile, hpe, hpy, hroot, hsst]
                | none => simp [workerDispatch, wWriteFile, hpe, hpy, hroot, hsst]
              · simp [workerDispatch, wWriteFile, hpe, hpy, hroot]
            rw [hpost]
            exact okResp_good id _ rfl rfl rfl
          · rw [Bool.not_eq_true] at hpy
            have hpost : (workerDispatch st o id (.write (some p) (some c))).2
                = [errResp id pyNotInit] := by
              simp [workerDispatch, wWriteFile, hpe, hpy]
            rw [hpost]
            exact errResp_good id _ (by decide)
  | read path =>
    cases path with
    | none =>
      have hpost : (workerDispatch st o id (.read none)).2
          = [errResp id (chars "Path required")] := by
        simp [workerDispatch]
      rw [hpost]
      exact errResp_good id _ (by decide)
    | some p =>
      by_cases hpe : p.isEmpty
      · have hpost : (workerDispatch st o id (.read (some p))).2
            = [errResp id (chars "Path required")] := by
          simp [workerDispatch, hpe]
        rw [hpost]
        exact errResp_good id _ (by decide)
      · by_cases hpy : st.pyInit = true
        · cases halg : alGet st.vfs p with
          | some v =>
            have hpost : (workerDispatch st o id (.read (some p))).2
                = [{ id := id, success := true, content := some v }] := by
              simp [workerDispatch, wReadFile, hpe, hpy, halg]
            rw [hpost]
            exact okResp_good id _ rfl rfl rfl
          | none =>
            have hpost : (workerDispatch st o id (.read (some p))).2
                = [errResp id fsErrNoEnt] := by
              simp [workerDispatch, wReadFile, hpe, hpy, halg]
            rw [hpost]
            exact errResp_good id _ (by decide)
        · rw [Bool.not_eq_true] at hpy
          have hpost : (workerDispatch st o id (.read (some p))).2
              = [errResp id pyNotInit] := by
            simp [workerDispatch, wReadFile, hpe, hpy]
          rw [hpost]
          exact errResp_good id _ (by decide)
  | del path =>
    cases path with
    | none =>
      have hpost : (workerDispatch st o id (.del none)).2
          = [errResp id (chars "Path required")] := by
        simp [workerDispatch]
      rw [hpost]
      exact errResp_good id _ (by decide)
    | some p =>
      by_cases hpe : p.isEmpty
      · have hpost : (workerDispatch st o id (.del (some p))).2
            = [errResp id (chars "Path required")] := by
          simp [workerDispatch, hpe]
        rw [hpost]
        exact errResp_good id _ (by decide)
      · by_cases hpy : st.pyInit = true
        · cases halg : alGet st.vfs p with
          | some v =>
            have hpost : (workerDispatch st o id (.del (some p))).2
                = [{ id := id, success := true }] := by
              by_cases hroot : jsStartsWith p sandboxSlash
              · cases hsst : st.storage with
                | some b => simp [workerDispatch, wDeleteFile, hpe, hpy, halg, hroot, hsst]
                | none => simp [workerDispatch, wDeleteFile, hpe, hpy, halg, hroot, hsst]
              · simp [workerDispatch, wDeleteFile, hpe, hpy, halg, hroot]
            rw [hpost]
            exact okResp_good id _ rfl rfl rfl
          | none =>
            have hpost : (workerDispatch st o id (.del (some p))).2
                = [errResp id fsErrNoEnt] := by
              simp [workerDispatch, wDeleteFile, hpe, hpy, halg]
            rw [hpost]
            exact errResp_good id _ (by decide)
        · rw [Bool.not_eq_true] at hpy
          have hpost : (workerDispatch st o id (.del (some p))).2
              = [errResp id pyNotInit] := by
            simp [workerDispatch, wDeleteFile, hpe, hpy]
          rw [hpost]
          exact errResp_good id _ (by decide)
  | list path =>
    by_cases hpy : st.pyInit = true
    · have hpost : (workerDispatch st o id (.list path)).2
          = [{ id := id, success := true,
               files := some ((st.vfs.map Prod.fst).filter
                 (fun kk => jsStartsWith kk (jsOrStr path persistRoot ++ ['/']))) }] := by
        simp [workerDispatch, wListFiles, hpy]
      rw [hpost]
      exact okResp_good id _ rfl rfl rfl
    · rw [Bool.not_eq_true] at hpy
      have hpost : (workerDispatch st o id (.list path)).2 = [errResp id pyNotInit] := by
        simp [workerDispatch, wListFiles, hpy]
      rw [hpost]
      exact errResp_good id _ (by decide)
  | install packages =>
    cases packages with
    | none =>
      have hpost : (workerDispatch st o id (.install none)).2
          = [errResp id (chars "Packages array required")] := by
        simp [workerDispatch]
      rw [hpost]
      exact errResp_good id _ (by decide)
    | some ps =>
      by_cases hpe : ps.isEmpty
      · have hpost : (workerDispatch st o id (.install (some ps))).2
            = [errResp id (chars "Packages array required")] := by
          simp [workerDispatch, hpe]
        rw [hpost]
        exact errResp_good id _ (by decide)
      · by_cases hpy : st.pyInit = true
        · cases hfa : o.installFail with
          | none =>
            have hpost : (workerDispatch st o id (.install (some ps))).2
                = [{ id := id, success := true }] := by
              simp [workerDispatch, wInstall, hpe, hpy, hfa]
            rw [hpost]
            exact okResp_good id _ rfl rfl rfl
          | some km =>
            obtain ⟨kk, mm⟩ := km
            have hm : mm ≠ [] := by
              rw [hfa] at hoInstall
              simpa [List.isEmpty_iff] using hoInstall
            have hpost : (workerDispatch st o id (.install (some ps))).2
                = [errResp id mm] := by
              simp [workerDispatch, wInstall, hpe, hpy, hfa]
            rw [hpost]
            exact errResp_good id mm hm
        · rw [Bool.not_eq_true] at hpy
          have hpost : (workerDispatch st o id (.install (some ps))).2
              = [errResp id pyNotInit] := by
            simp [workerDispatch, wInstall, hpe, hpy]
          rw [hpost]
          exact errResp_good id _ (by decide)
  | snap =>
    by_cases hpy : st.pyInit = true
    · cases hres : o.snapRes with
      | ok s =>
        have hpost : (workerDispatch st o id .snap).2
            = [{ id := id, success := true, snapshot := some s,
                 packages := some (dedupAppend st.installedPackages [chars "dill"]) }] := by
          simp [workerDispatch, wSnapshot, hpy, hres]
        rw [hpost]
        exact okResp_good id _ rfl rfl rfl
      | error m =>
        have hm : m ≠ [] := by
          rw [hres] at hoSnap
          simpa [exceptMsgOk, List.isEmpty_iff] using hoSnap
        have hpost : (workerDispatch st o id .snap).2 = [errResp id m] := by
          simp [workerDispatch, wSnapshot, hpy, hres]
        rw [hpost]
        exact errResp_good id m hm
    · rw [Bool.not_eq_true] at hpy
      have hpost : (workerDispatch st o id .snap).2 = [errResp id pyNotInit] := by
        simp [workerDispatch, wSnapshot, hpy]
      rw [hpost]
      exact errResp_good id _ (by decide)
  | restore snap packages =>
    cases snap with
    | none =>
      have hpost : (workerDispatch st o id (.restore none packages)).2
          = [errResp id (chars "Snapshot data required")] := by
        simp [workerDispatch]
      rw [hpost]
      exact errResp_good id _ (by decide)
    | some s =>
      by_cases hpe : s.isEmpty
      · have hpost : (workerDispatch st o id (.restore (some s) packages)).2
            = [errResp id (chars "Snapshot data required")] := by
          simp [workerDispatch, hpe]
        rw [hpost]
        exact errResp_good id _ (by decide)
      · by_cases hpy : st.pyInit = true
        · cases hres : o.restoreRes with
          | ok u =>
            have hpost : (workerDispatch st o id (.restore (some s) packages)).2
                = [{ id := id, success := true }] := by
              simp [workerDispatch, wRestore, hpe, hpy, hres]
            rw [hpost]
            exact okResp_good id _ rfl rfl rfl
          | error m =>
            have hm : m ≠ [] := by
              rw [hres] at hoRestore
              simpa [exceptMsgOk, List.isEmpty_iff] using hoRestore
            have hpost : (workerDispatch st o id (.restore (some s) packages)).2
                = [errResp id m] := by
              simp [workerDispatch, wRestore, hpe, hpy, hres]
            rw [hpost]
            exact errResp_good id m hm
        · rw [Bool.not_eq_true] at hpy
          have hpost : (workerDispatch st o id (.restore (some s) packages)).2
              = [errResp id pyNotInit] := by
            simp [workerDispatch, wRestore, hpe, hpy]
          rw [hpost]
          exact errResp_good id _ (by decide)
  | destroy =>
    have hpost : (workerDispatch st o id .destroy).2 = [{ id := id, success := true }] := by
      simp [workerDispatch]
    rw [hpost]
    exact okResp_good id _ rfl rfl rfl
  | other t =>
    have hpost : (workerDispatch st o id (.other t)).2
        = [errResp id (chars "Unknown message type: " ++ t)] := by
      simp [workerDispatch]
    rw [hpost]
    refine errResp_good id _ ?_
    intro hb
    have : chars "Unknown message type: " ++ t ≠ [] := by
      cases ht : chars "Unknown message type: " ++ t with
      | nil => simp [chars] at ht
      | cons a r => simp
    exact this hb

/-- C7, witness: an unknown message kind against an uninitialized
worker and a benign oracle. -/
theorem c7_single_terminal_response_witness :
    ((⟨.ok ⟨[]⟩, ⟨[], [], .ok none⟩, none, .ok [], .ok ()⟩ : Oracle).msgsOk = true)
    ∧ (∃ streams resp,
        (workerDispatch ⟨[], none, [], false⟩
            ⟨.ok ⟨[]⟩, ⟨[], [], .ok none⟩, none, .ok [], .ok ()⟩
            9 (.other (chars "bogus"))).2 = streams ++ [resp]
        ∧ (∀ s ∈ streams, s.streaming = true ∧ s.id = 9)
        ∧ resp.streaming = false
        ∧ resp.id = 9
        ∧ (resp.success = false → resp.error ≠ none ∧ resp.error ≠ some [])
        ∧ ((workerDispatch ⟨[], none, [], false⟩
              ⟨.ok ⟨[]⟩, ⟨[], [], .ok none⟩, none, .ok [], .ok ()⟩
              9 (.other (chars "bogus"))).2.filter (fun mm => mm.streaming = false)) = [resp]) :=
  ⟨by decide,
    c7_single_terminal_response ⟨[], none, [], false⟩
      ⟨.ok ⟨[]⟩, ⟨[], [], .ok none⟩, none, .ok [], .ok ()⟩ 9 (.other (chars "bogus"))
      (by decide)⟩

end ClaimC7

